import Mathlib

/-! QR code backend (`server.js`): shallow embedding and verified properties

The Express application of `server.js` is embedded as pure functions over an
explicit store (the two MongoDB collections `users` and `qrcodes`).

* Request bodies, headers and JSON payloads are JavaScript values (`JSVal`).
* The npm libraries the file calls are not part of the repository.  Behaviour
  that the handlers rely on and that is fixed by the library interface
  (argument checks of bcryptjs, `required` validation and unique indexes of
  mongoose/MongoDB, equality filters, sorting) is written out; the parts that
  are cryptographic or version dependent (hash values, token strings, casts of
  non-string values, the payment provider) are fields of `Lib`.
* Everything a handler reads from its environment (clock, fresh ObjectId, the
  salt drawn by bcrypt) is carried by the request context `Ctx`.
-/

namespace QrBackend

/-! ## JavaScript values -/

mutual
/-- A JavaScript value as produced by `express.json()` (plus `undefined`, the
value of an absent property).  Numbers are integers; a number with a
fractional part behaves like a non-zero integer in every test made here. -/
inductive JSVal where
  | undefined
  | null
  | bool (b : Bool)
  | num (n : Int)
  | str (s : String)
  | arr (items : JSList)
  | obj (fields : JSFields)
/-- The elements of a JavaScript array. -/
inductive JSList where
  | nil
  | cons (head : JSVal) (tail : JSList)
/-- The own properties of a JavaScript object, in insertion order. -/
inductive JSFields where
  | nil
  | cons (key : String) (value : JSVal) (tail : JSFields)
end

deriving instance DecidableEq for JSVal

/-- JavaScript truthiness: the test behind `!v`, `a || b` and `if (v)`. -/
def JSVal.truthy : JSVal → Bool
  | .undefined => false
  | .null => false
  | .bool b => b
  | .num n => decide (n ≠ 0)
  | .str s => decide (s ≠ "")
  | .arr _ => true
  | .obj _ => true

/-- Property lookup in an object literal. -/
def JSFields.get : JSFields → String → JSVal
  | .nil, _ => .undefined
  | .cons k v tl, key => if k = key then v else tl.get key

/-- The parsed JSON object of a request body (`req.body`), as its properties. -/
abbrev Body := List (String × JSVal)

/-- Destructuring `const { key } = req.body`: an absent property is `undefined`. -/
def field (body : Body) (key : String) : JSVal :=
  match body.lookup key with
  | some v => v
  | none => .undefined

/-! ## Errors, documents, responses -/

deriving instance DecidableEq for Except

/-- The exceptions the handlers can catch. -/
inductive JsError where
  /-- bcryptjs rejects an argument that is not a string ("Illegal arguments"). -/
  | illegalArguments
  /-- A mongoose ValidationError (failed cast or `required`) on a schema path. -/
  | validation (path : String)
  /-- A mongoose CastError for a filter value on a schema path. -/
  | cast (path : String)
  /-- MongoDB E11000: a unique index already holds the key. -/
  | duplicateKey (index : String)
  /-- ReferenceError: the identifier is not defined. -/
  | reference (name : String)
  /-- TypeError: property access on `undefined` or `null`. -/
  | typeError
  /-- The payment provider call failed. -/
  | provider
  deriving DecidableEq

/-- A document of the `users` collection (`UserSchema`). -/
structure UserDoc where
  _id : Nat
  firstName : String
  lastName : String
  email : String
  password : String
  deriving DecidableEq

/-- A document of the `qrcodes` collection (`QRSchema`). -/
structure QRDoc where
  _id : Nat
  userId : Nat
  type : String
  data : JSVal
  createdAt : Nat
  deriving DecidableEq

/-- The database: the two collections, each in insertion order. -/
structure Store where
  users : List UserDoc
  qrcodes : List QRDoc
  deriving DecidableEq

/-- The database before any request. -/
def Store.empty : Store := ⟨[], []⟩

/-- The payload handed to `jwt.sign`: `{ userId, email }`. -/
structure Claims where
  userId : Nat
  email : JSVal
  deriving DecidableEq

/-- The payload returned by `jwt.verify`: the signed claims plus `iat`, `exp`. -/
structure Payload where
  userId : Nat
  email : JSVal
  iat : Nat
  exp : Nat
  deriving DecidableEq

/-- The JSON (or text) sent back by a handler. -/
inductive ResBody where
  /-- Plain text, `res.send(text)`. -/
  | text (text : String)
  /-- A body with only a `message` property. -/
  | message (message : String)
  /-- A body with `message` and `error` (the caught error). -/
  | messageError (message : String) (error : JsError)
  /-- A body with `message` and `token`. -/
  | messageToken (message : String) (token : String)
  /-- A body with `message` and `qr`. -/
  | messageQr (message : String) (qr : QRDoc)
  /-- A body with only `qrcodes`. -/
  | qrcodes (qrcodes : List QRDoc)
  /-- A body with only `url`. -/
  | url (url : String)
  /-- A body with only `error`. -/
  | error (error : String)
  /-- The page of the default Express error handler for an error passed to `next`. -/
  | unhandled (error : String)
  deriving DecidableEq

/-- An HTTP response: status code and body. -/
structure Response where
  status : Nat
  body : ResBody
  deriving DecidableEq

/-! ## The payment provider request -/

/-- The `product_data` of the line item. -/
structure ProductData where
  name : String
  description : String
  deriving DecidableEq

/-- The `price_data` of the line item. -/
structure PriceData where
  currency : String
  product_data : ProductData
  unit_amount : Nat
  deriving DecidableEq

/-- One entry of `line_items`. -/
structure LineItem where
  price_data : PriceData
  quantity : Nat
  deriving DecidableEq

/-- The argument of `stripe.checkout.sessions.create`. -/
structure SessionParams where
  payment_method_types : List String
  line_items : List LineItem
  mode : String
  success_url : String
  cancel_url : String
  deriving DecidableEq

/-- The provider session, of which the handler reads `url`. -/
structure Session where
  url : String
  deriving DecidableEq

/-! ## Libraries and configuration -/

/-- The behaviour of the npm libraries that the source does not determine. -/
structure Lib where
  /-- The value of `bcrypt.hash(password, cost)` when bcrypt draws `salt`. -/
  hash : String → Nat → Nat → String
  /-- The value of `bcrypt.compare(password, stored)` on two strings. -/
  compare : String → String → Bool
  /-- The value of `jwt.sign(claims, secret, opts)` with `expiresIn` seconds at time `now`. -/
  sign : Claims → String → Nat → Nat → String
  /-- The value of `jwt.verify(token, secret)` at time `now`; `none` when it throws. -/
  verify : String → String → Nat → Option Payload
  /-- The mongoose cast to `String` of a value that is neither a string nor
  null/undefined; `none` is a CastError. -/
  castString : JSVal → Option String
  /-- Whether the filter `{ email: v }` selects a user with the stored email,
  for `v` undefined or null (mongoose passes such a value on uncast). -/
  matchEmail : JSVal → String → Bool
  /-- The filter `{ email: v }` for any other value `v` that is neither a
  string nor the empty object: the selection it makes, or `none` when mongoose
  rejects `v` with a CastError. -/
  emailFilter : JSVal → Option (String → Bool)
  /-- The value mongoose serialises (default `minimize`) for an array or a
  non-empty object held by a `Mixed` path; `undefined` when it is dropped. -/
  minimize : JSVal → JSVal
  /-- The outcome of `stripe.checkout.sessions.create`; `none` when it rejects. -/
  createSession : SessionParams → Option Session
  /-- The text JavaScript prints for a number inside a template literal. -/
  numberToString : Int → String

/-- Process configuration. -/
structure Config where
  /-- The value of `process.env.JWT_SECRET`. -/
  JWT_SECRET : String
  /-- Properties of the global object beyond the names `server.js` declares. -/
  globals : List (String × JSVal)

/-- What a request reads from its environment. -/
structure Ctx where
  /-- The clock reading (`Date.now()`), kept at one resolution, in seconds. -/
  now : Nat
  /-- The ObjectId generated for a document constructed by this request. -/
  objectId : Nat
  /-- The salt bcrypt draws during this request. -/
  salt : Nat
  deriving DecidableEq

/-- The option `expiresIn: "24h"`, in seconds. -/
def expiresIn : Nat := 86400

/-! ## CORS -/

/-- The constant `allowedOrigins`. -/
def allowedOrigins : List String :=
  ["https://createqr.d1nfh4ldjnk0ad.amplifyapp.com", "http://localhost:3000"]

/-- Truthiness of a header value that is a string or `undefined`. -/
def headerTruthy : Option String → Bool
  | none => false
  | some s => decide (s ≠ "")

/-- The call `allowedOrigins.includes(origin)`. -/
def includes (xs : List String) : Option String → Bool
  | none => false
  | some s => xs.contains s

/-- The `origin` callback given to `cors`: `.ok true` is `callback(null, true)`,
`.error m` is `callback(new Error(m))`. -/
def corsOrigin (origin : Option String) : Except String Bool :=
  if !headerTruthy origin || includes allowedOrigins origin then .ok true
  else .error "Not allowed by CORS"

/-! ## The `authenticate` middleware -/

/-- The call `s.split(" ")` on the characters of `s`: the maximal runs between
single spaces (so two adjacent spaces delimit an empty piece). -/
def splitSpace : List Char → List (List Char)
  | [] => [[]]
  | c :: cs =>
    if c = Char.ofNat 32 then [] :: splitSpace cs
    else
      match splitSpace cs with
      | [] => [[c]]
      | w :: ws => (c :: w) :: ws

/-- The expression `req.headers.authorization?.split(" ")[1]`; `none` is `undefined`. -/
def secondPiece (authorization : Option String) : Option String :=
  match authorization with
  | none => none
  | some h => ((splitSpace h.data)[1]?).map String.mk

/-- What the middleware does: call `next()` with `req.user` set, or respond. -/
inductive AuthResult where
  | next (user : Payload)
  | respond (res : Response)
  deriving DecidableEq

/-- The middleware `authenticate`.  The test `!token` holds for `undefined`
and for the empty string. -/
def authenticate (lib : Lib) (cfg : Config) (ctx : Ctx)
    (authorization : Option String) : AuthResult :=
  match secondPiece authorization with
  | none => .respond ⟨401, .message "Access Denied"⟩
  | some token =>
    if token = "" then .respond ⟨401, .message "Access Denied"⟩
    else
      match lib.verify token cfg.JWT_SECRET ctx.now with
      | some verified => .next verified
      | none => .respond ⟨400, .message "Invalid Token"⟩

/-- A route registered as `app.METHOD(path, authenticate, handler)`: the
handler runs only when the middleware calls `next()`. -/
def guarded (lib : Lib) (cfg : Config) (ctx : Ctx) (authorization : Option String)
    (handler : Payload → Store → Response × Store) (st : Store) : Response × Store :=
  match authenticate lib cfg ctx authorization with
  | .respond res => (res, st)
  | .next user => handler user st

/-! ## Store operations (mongoose models `User` and `QRCode`) -/

/-- The filter `{ email }` after mongoose has cast it: the selection it makes
on stored emails, or the CastError.  A string selects by equality; undefined
and null are never cast; the empty object does not cast to `String`. -/
def emailQuery (lib : Lib) (email : JSVal) : Except JsError (String → Bool) :=
  match email with
  | .str s => .ok (fun stored => decide (s = stored))
  | .undefined => .ok (lib.matchEmail .undefined)
  | .null => .ok (lib.matchEmail .null)
  | .obj .nil => .error (.cast "email")
  | v =>
    match lib.emailFilter v with
    | some selects => .ok selects
    | none => .error (.cast "email")

/-- The query `User.findOne({ email })`: the first matching document or
`null`, or the CastError with which the query rejects. -/
def User.findOne (lib : Lib) (email : JSVal) (users : List UserDoc) :
    Except JsError (Option UserDoc) :=
  match emailQuery lib email with
  | .error e => .error e
  | .ok selects => .ok (users.find? (fun u => selects u.email))

/-- A schema path `{ type: String, required: true }`: the value is cast to a
string and must then be a non-empty string. -/
def requiredString (lib : Lib) (path : String) (v : JSVal) : Except JsError String :=
  match v with
  | .undefined => .error (.validation path)
  | .null => .error (.validation path)
  | .str s => if s = "" then .error (.validation path) else .ok s
  | w =>
    match lib.castString w with
    | none => .error (.validation path)
    | some s => if s = "" then .error (.validation path) else .ok s

/-- A schema path `{ type: Mixed, required: true }`: any value but null/undefined. -/
def requiredMixed (path : String) (v : JSVal) : Except JsError JSVal :=
  match v with
  | .undefined => .error (.validation path)
  | .null => .error (.validation path)
  | w => .ok w

/-- The calls `new User({ firstName, lastName, email, password })` and
`newUser.save()`: schema validation, then the insert, which the unique indexes
on `_id` and `email` can refuse.  Returns the document and the new collection. -/
def User.save (lib : Lib) (_id : Nat) (firstName lastName email : JSVal) (password : String)
    (users : List UserDoc) : Except JsError (UserDoc × List UserDoc) :=
  match requiredString lib "firstName" firstName with
  | .error e => .error e
  | .ok fn =>
    match requiredString lib "lastName" lastName with
    | .error e => .error e
    | .ok ln =>
      match requiredString lib "email" email with
      | .error e => .error e
      | .ok em =>
        match requiredString lib "password" (.str password) with
        | .error e => .error e
        | .ok pw =>
          if users.any (fun u => decide (u._id = _id)) then .error (.duplicateKey "_id")
          else if users.any (fun u => decide (u.email = em)) then .error (.duplicateKey "email")
          else
            let doc : UserDoc := ⟨_id, fn, ln, em, pw⟩
            .ok (doc, users ++ [doc])

/-- The value of a `Mixed` path as the document is written to the database and
serialised into a response.  `QRSchema` sets no options, so `minimize` is on:
an empty object is dropped (the property is then absent, `undefined`);
strings, numbers and booleans are kept as given. -/
def storedMixed (lib : Lib) : JSVal → JSVal
  | .obj .nil => .undefined
  | .obj fields => lib.minimize (.obj fields)
  | .arr items => lib.minimize (.arr items)
  | v => v

/-- The calls `new QRCode({ userId, type, data })` and `newQR.save()`;
`createdAt` defaults to the time of construction.  The document returned is
the one the handler serialises into its response. -/
def QRCode.save (lib : Lib) (_id userId : Nat) (type data : JSVal) (now : Nat)
    (qrcodes : List QRDoc) : Except JsError (QRDoc × List QRDoc) :=
  match requiredString lib "type" type with
  | .error e => .error e
  | .ok ty =>
    match requiredMixed "data" data with
    | .error e => .error e
    | .ok d =>
      if qrcodes.any (fun q => decide (q._id = _id)) then .error (.duplicateKey "_id")
      else
        let doc : QRDoc := ⟨_id, userId, ty, storedMixed lib d, now⟩
        .ok (doc, qrcodes ++ [doc])

/-- The query `QRCode.find({ userId })`. -/
def QRCode.find (userId : Nat) (qrcodes : List QRDoc) : List QRDoc :=
  qrcodes.filter (fun q => decide (q.userId = userId))

/-- The order of `.sort({ createdAt: -1 })`: `a` may precede `b`. -/
def newerFirst (a b : QRDoc) : Prop := b.createdAt ≤ a.createdAt

instance newerFirst.decidable : DecidableRel newerFirst :=
  fun a b => inferInstanceAs (Decidable (b.createdAt ≤ a.createdAt))

instance newerFirst.isTotal : IsTotal QRDoc newerFirst :=
  ⟨fun a b => Nat.le_total b.createdAt a.createdAt⟩

instance newerFirst.isTrans : IsTrans QRDoc newerFirst :=
  ⟨fun _ _ _ hab hbc => Nat.le_trans hbc hab⟩

/-- The cursor method `.sort({ createdAt: -1 })`.  MongoDB leaves the order
of equal keys open; here ties keep their insertion order. -/
def sortCreatedAtDesc (qrcodes : List QRDoc) : List QRDoc :=
  qrcodes.insertionSort newerFirst

/-! ## bcryptjs argument checks -/

/-- The call `bcrypt.hash(password, 10)`: rejects unless `password` is a string. -/
def bcryptHash (lib : Lib) (password : JSVal) (cost salt : Nat) : Except JsError String :=
  match password with
  | .str s => .ok (lib.hash s cost salt)
  | _ => .error .illegalArguments

/-- The call `bcrypt.compare(password, stored)`: rejects unless both are strings. -/
def bcryptCompare (lib : Lib) (password : JSVal) (stored : String) : Except JsError Bool :=
  match password with
  | .str s => .ok (lib.compare s stored)
  | _ => .error .illegalArguments

/-! ## Route handlers -/

/-- The handler of `POST /signup`. -/
def signup (lib : Lib) (cfg : Config) (ctx : Ctx) (body : Body) (st : Store) :
    Response × Store :=
  let firstName := field body "firstName"
  let lastName := field body "lastName"
  let email := field body "email"
  let password := field body "password"
  match User.findOne lib email st.users with
  | .error e => (⟨500, .messageError "Error registering user" e⟩, st)
  | .ok (some _) => (⟨400, .message "User already exists"⟩, st)
  | .ok none =>
    match bcryptHash lib password 10 ctx.salt with
    | .error e => (⟨500, .messageError "Error registering user" e⟩, st)
    | .ok hashedPassword =>
      match User.save lib ctx.objectId firstName lastName email hashedPassword st.users with
      | .error e => (⟨500, .messageError "Error registering user" e⟩, st)
      | .ok (newUser, users) =>
        let token := lib.sign ⟨newUser._id, email⟩ cfg.JWT_SECRET expiresIn ctx.now
        (⟨201, .messageToken "User registered successfully" token⟩, { st with users := users })

/-- The handler of `POST /login`. -/
def login (lib : Lib) (cfg : Config) (ctx : Ctx) (body : Body) (st : Store) :
    Response × Store :=
  let email := field body "email"
  let password := field body "password"
  match User.findOne lib email st.users with
  | .error _ => (⟨500, .message "Error during login."⟩, st)
  | .ok none => (⟨404, .message "User not found."⟩, st)
  | .ok (some user) =>
    match bcryptCompare lib password user.password with
    | .error _ => (⟨500, .message "Error during login."⟩, st)
    | .ok false => (⟨401, .message "Invalid credentials."⟩, st)
    | .ok true =>
      let token := lib.sign ⟨user._id, .str user.email⟩ cfg.JWT_SECRET expiresIn ctx.now
      (⟨200, .messageToken "Login successful!" token⟩, st)

/-- The handler of `POST /create-qr`, run after `authenticate` set `req.user`. -/
def createQr (lib : Lib) (ctx : Ctx) (body : Body) (user : Payload) (st : Store) :
    Response × Store :=
  let type := field body "type"
  let data := field body "data"
  if !type.truthy || !data.truthy then
    (⟨400, .message "Type and data are required"⟩, st)
  else
    match QRCode.save lib ctx.objectId user.userId type data ctx.now st.qrcodes with
    | .error e => (⟨500, .messageError "Failed to save QR Code" e⟩, st)
    | .ok (newQR, qrcodes) =>
      (⟨201, .messageQr "QR Code saved successfully" newQR⟩, { st with qrcodes := qrcodes })

/-- The handler of `GET /my-qrcodes`, run after `authenticate` set `req.user`. -/
def myQrcodes (user : Payload) (st : Store) : Response × Store :=
  (⟨200, .qrcodes (sortCreatedAtDesc (QRCode.find user.userId st.qrcodes))⟩, st)

/-! ## The donation checkout -/

mutual
/-- The string a value turns into inside a template literal. -/
def JSVal.toStr (lib : Lib) : JSVal → String
  | .undefined => "undefined"
  | .null => "null"
  | .bool true => "true"
  | .bool false => "false"
  | .num n => lib.numberToString n
  | .str s => s
  | .arr items => items.join lib
  | .obj _ => "[object Object]"
/-- The call `Array.prototype.join` with the default separator. -/
def JSList.join (lib : Lib) : JSList → String
  | .nil => ""
  | .cons .undefined .nil => ""
  | .cons .null .nil => ""
  | .cons v .nil => v.toStr lib
  | .cons .undefined tl => "," ++ tl.join lib
  | .cons .null tl => "," ++ tl.join lib
  | .cons v tl => v.toStr lib ++ "," ++ tl.join lib
end

/-- Evaluation of an identifier that neither the handler nor the module
declares: a property of the global object, or a ReferenceError. -/
def evalGlobal (cfg : Config) (name : String) : Except JsError JSVal :=
  match cfg.globals.lookup name with
  | some v => .ok v
  | none => .error (.reference name)

/-- Property access `v.key`. -/
def member (v : JSVal) (key : String) : Except JsError JSVal :=
  match v with
  | .undefined => .error .typeError
  | .null => .error .typeError
  | .obj fields => .ok (fields.get key)
  | _ => .ok .undefined

/-- The template literal that starts with `COMMON_VARIABLES.FRONT_END` and
ends with `path`.  No declaration of `COMMON_VARIABLES` exists in `server.js`. -/
def frontEndUrl (lib : Lib) (cfg : Config) (path : String) : Except JsError String :=
  match evalGlobal cfg "COMMON_VARIABLES" with
  | .error e => .error e
  | .ok cv =>
    match member cv "FRONT_END" with
    | .error e => .error e
    | .ok frontEnd => .ok (frontEnd.toStr lib ++ path)

/-- The session request built by the handler from its two URLs. -/
def sessionParams (success_url cancel_url : String) : SessionParams :=
  { payment_method_types := ["card"]
    line_items :=
      [{ price_data :=
           { currency := "usd"
             product_data :=
               { name := "Support Our Project"
                 description := "Donate and support our work!" }
             unit_amount := 500 }
         quantity := 1 }]
    mode := "payment"
    success_url := success_url
    cancel_url := cancel_url }

/-- The handler of `POST /create-checkout-session`. -/
def createCheckoutSession (lib : Lib) (cfg : Config) : Response :=
  match frontEndUrl lib cfg "/payment-success" with
  | .error _ => ⟨500, .error "Internal server error"⟩
  | .ok success_url =>
    match frontEndUrl lib cfg "/payment-cancel" with
    | .error _ => ⟨500, .error "Internal server error"⟩
    | .ok cancel_url =>
      match lib.createSession (sessionParams success_url cancel_url) with
      | none => ⟨500, .error "Internal server error"⟩
      | some session => ⟨200, .url session.url⟩

/-! ## The application -/

/-- The routes of the application with the parts of a request they read. -/
inductive Route where
  | root
  | signup (body : Body)
  | login (body : Body)
  | createQr (authorization : Option String) (body : Body)
  | myQrcodes (authorization : Option String)
  | createCheckoutSession

/-- A request: its `Origin` header, its route and inputs, its environment. -/
structure Request where
  origin : Option String
  route : Route
  ctx : Ctx

/-- One request through the middleware stack: the CORS check, then the route. -/
def handle (lib : Lib) (cfg : Config) (st : Store) (req : Request) : Response × Store :=
  match corsOrigin req.origin with
  | .error e => (⟨500, .unhandled e⟩, st)
  | .ok _ =>
    match req.route with
    | .root => (⟨200, .text "Welcome to backend server of QRCODE"⟩, st)
    | .signup body => signup lib cfg req.ctx body st
    | .login body => login lib cfg req.ctx body st
    | .createQr authorization body =>
      guarded lib cfg req.ctx authorization (createQr lib req.ctx body) st
    | .myQrcodes authorization => guarded lib cfg req.ctx authorization myQrcodes st
    | .createCheckoutSession => (createCheckoutSession lib cfg, st)

/-- The store after a sequence of requests served one after the other. -/
def run (lib : Lib) (cfg : Config) (st : Store) : List Request → Store
  | [] => st
  | req :: rest => run lib cfg (handle lib cfg st req).2 rest

/-- The record `r` was created by a `POST /create-qr` of the sequence `reqs`
(served from the empty store) whose token carried `userId`: that request was
let through by `authenticate` with a payload of that userId and was answered
201 with `r`. -/
def CreatedUnder (lib : Lib) (cfg : Config) (reqs : List Request) (userId : Nat)
    (r : QRDoc) : Prop :=
  ∃ (before after : List Request) (req : Request) (authorization : Option String)
    (body : Body) (user : Payload),
    reqs = before ++ req :: after
    ∧ req.route = .createQr authorization body
    ∧ authenticate lib cfg req.ctx authorization = .next user
    ∧ user.userId = userId
    ∧ (handle lib cfg (run lib cfg Store.empty before) req).1
        = ⟨201, .messageQr "QR Code saved successfully" r⟩

/-! ## A concrete library for worked examples -/

/-- A small library instance on which the handlers can be evaluated: two
tokens are valid (for users 1 and 2) during the first day, hashes are the
password behind a fixed marker, values that are not strings neither cast to
`String` nor are accepted as an email filter, and the provider always
succeeds. -/
def demoLib : Lib where
  hash := fun p _ _ => "$2a$10$" ++ p
  compare := fun p stored => decide (stored = "$2a$10$" ++ p)
  sign := fun c _ _ _ =>
    if c.userId = 1 then "tokenA" else if c.userId = 2 then "tokenB" else "tokenX"
  verify := fun t _ now =>
    if t = "tokenA" ∧ now < 86400 then some ⟨1, .str "a@example.com", 0, 86400⟩
    else if t = "tokenB" ∧ now < 86400 then some ⟨2, .str "b@example.com", 0, 86400⟩
    else none
  castString := fun _ => none
  matchEmail := fun _ _ => false
  emailFilter := fun _ => none
  minimize := fun v => v
  createSession := fun _ => some ⟨"https://checkout.example/session"⟩
  numberToString := fun _ => "0"

/-- A configuration as in a running process: a secret, and a global object
without any property named `COMMON_VARIABLES`. -/
def demoConfig : Config := ⟨"secret", []⟩

/-- The contract of jsonwebtoken for one set of claims: the token signed over
them at `now` verifies under the same secret to those claims with `iat = now`
and `exp = now + expiresIn` as long as it has not expired, and is rejected
from its expiry on. -/
def Lib.SignVerify (lib : Lib) (c : Claims) (secret : String) (now : Nat) : Prop :=
  ∀ t, now ≤ t →
    lib.verify (lib.sign c secret expiresIn now) secret t
      = if t < now + expiresIn then some ⟨c.userId, c.email, now, now + expiresIn⟩ else none

/-! ## CORS (C8) -/

theorem corsOrigin_ok_iff (origin : Option String) :
    corsOrigin origin = .ok true ↔
      origin = none ∨ origin = some "" ∨ ∃ o ∈ allowedOrigins, origin = some o := by
  cases origin with
  | none => simp [corsOrigin, headerTruthy]
  | some o =>
    by_cases h0 : o = ""
    · subst h0; simp [corsOrigin, headerTruthy]
    · by_cases hm : o ∈ allowedOrigins
      · simp [corsOrigin, headerTruthy, includes, h0, hm]
      · simp [corsOrigin, headerTruthy, includes, h0, hm]

/-- C8, as stated, fails: a request whose Origin header is present with the
empty value passes the check although that value is not in the allow-list. -/
theorem cors_empty_origin_accepted :
    corsOrigin (some "") = .ok true ∧ (some "" : Option String) ≠ none
      ∧ "" ∉ allowedOrigins := by
  decide

/-- C8 (amended): the origin check accepts exactly the requests with no Origin
header, with an empty Origin value, or with an Origin that is a member of the
allow-list (exact string match); every other Origin fails with the error
"Not allowed by CORS".  The two listed origins pass, `https://evil.example`
fails. -/
theorem cors_origin_check (origin : Option String) :
    (corsOrigin origin = .ok true ↔
      origin = none ∨ origin = some "" ∨ ∃ o ∈ allowedOrigins, origin = some o)
    ∧ (¬ (origin = none ∨ origin = some "" ∨ ∃ o ∈ allowedOrigins, origin = some o) →
        corsOrigin origin = .error "Not allowed by CORS")
    ∧ allowedOrigins
        = ["https://createqr.d1nfh4ldjnk0ad.amplifyapp.com", "http://localhost:3000"]
    ∧ corsOrigin (some "http://localhost:3000") = .ok true
    ∧ corsOrigin (some "https://evil.example") = .error "Not allowed by CORS" := by
  refine ⟨corsOrigin_ok_iff origin, ?_, rfl, by decide, by decide⟩
  intro h
  have h1 : corsOrigin origin ≠ .ok true := fun hc => h ((corsOrigin_ok_iff origin).1 hc)
  unfold corsOrigin at h1 ⊢
  split
  · rename_i hc; simp [hc] at h1
  · rfl

/-- Witness for `cors_origin_check`: an origin outside the allow-list fails. -/
theorem cors_origin_check_witness :
    corsOrigin (some "https://evil.example") = .error "Not allowed by CORS" :=
  (cors_origin_check (some "https://evil.example")).2.1 (by decide)

/-! ## The authentication middleware (C1) -/

theorem splitSpace_ne_nil (l : List Char) : splitSpace l ≠ [] := by
  cases l with
  | nil => simp [splitSpace]
  | cons c cs =>
    unfold splitSpace
    split
    · simp
    · split <;> simp

theorem splitSpace_of_no_space (l : List Char) (h : ∀ c ∈ l, c ≠ Char.ofNat 32) :
    splitSpace l = [l] := by
  induction l with
  | nil => rfl
  | cons c cs ih =>
    have hc : c ≠ Char.ofNat 32 := h c (List.mem_cons_self _ _)
    have hcs : ∀ d ∈ cs, d ≠ Char.ofNat 32 := fun d hd => h d (List.mem_cons_of_mem _ hd)
    simp [splitSpace, hc, ih hcs]

theorem splitSpace_append_space (l₁ l₂ : List Char) (h : ∀ c ∈ l₁, c ≠ Char.ofNat 32) :
    splitSpace (l₁ ++ Char.ofNat 32 :: l₂) = l₁ :: splitSpace l₂ := by
  induction l₁ with
  | nil => simp [splitSpace]
  | cons c cs ih =>
    have hc : c ≠ Char.ofNat 32 := h c (List.mem_cons_self _ _)
    have hcs : ∀ d ∈ cs, d ≠ Char.ofNat 32 := fun d hd => h d (List.mem_cons_of_mem _ hd)
    simp [splitSpace, hc, ih hcs]

/-- A header of the form `Bearer <token>`, the token free of spaces, yields the token. -/
theorem secondPiece_bearer (token : String) (h : ∀ c ∈ token.data, c ≠ Char.ofNat 32) :
    secondPiece (some ("Bearer " ++ token)) = some token := by
  have hd : ("Bearer " ++ token).data
      = ['B', 'e', 'a', 'r', 'e', 'r'] ++ Char.ofNat 32 :: token.data := by
    rw [String.data_append]; rfl
  have hb : ∀ c ∈ ['B', 'e', 'a', 'r', 'e', 'r'], c ≠ Char.ofNat 32 := by decide
  simp only [secondPiece, hd, splitSpace_append_space _ _ hb, splitSpace_of_no_space _ h]
  rfl

theorem authenticate_next_iff (lib : Lib) (cfg : Config) (ctx : Ctx)
    (authorization : Option String) (user : Payload) :
    authenticate lib cfg ctx authorization = .next user ↔
      ∃ token, secondPiece authorization = some token ∧ token ≠ ""
        ∧ lib.verify token cfg.JWT_SECRET ctx.now = some user := by
  unfold authenticate
  cases hs : secondPiece authorization with
  | none => simp
  | some token =>
    by_cases ht : token = ""
    · simp [ht]
    · cases hv : lib.verify token cfg.JWT_SECRET ctx.now with
      | none => simp [ht, hv]
      | some p => simp [ht, hv]

/-- C1, as stated, fails: a header whose scheme word is not `Bearer` is let
through when its second piece is a valid token, and the handler then writes
the store. -/
theorem authenticate_accepts_other_scheme :
    (¬ ∃ token, "Basic tokenA" = "Bearer " ++ token)
    ∧ authenticate demoLib demoConfig ⟨0, 7, 0⟩ (some "Basic tokenA")
        = .next ⟨1, .str "a@example.com", 0, 86400⟩
    ∧ guarded demoLib demoConfig ⟨0, 7, 0⟩ (some "Basic tokenA")
        (createQr demoLib ⟨0, 7, 0⟩ [("type", .str "URL"), ("data", .str "https://a.example")])
        Store.empty
      = (⟨201, .messageQr "QR Code saved successfully"
            ⟨7, 1, "URL", .str "https://a.example", 0⟩⟩,
         ⟨[], [⟨7, 1, "URL", .str "https://a.example", 0⟩]⟩) := by
  refine ⟨?_, by decide, by decide⟩
  rintro ⟨token, h⟩
  have hd := congrArg String.data h
  rw [String.data_append] at hd
  have e₁ : "Basic tokenA".data = 'B' :: 'a' :: "sic tokenA".data := rfl
  have e₂ : "Bearer ".data = 'B' :: 'e' :: "arer ".data := rfl
  rw [e₁, e₂] at hd
  simp at hd

/-- C1 (amended): on a route guarded by `authenticate` (both `POST /create-qr`
and `GET /my-qrcodes`, for any handler), the handler runs exactly when the
second space-separated piece of the Authorization header is a non-empty token
that `jwt.verify` accepts under the signing secret, and it then runs with
`req.user` equal to the verified payload; the scheme word before the space is
not inspected.  Otherwise the response is 401 "Access Denied" when that piece
is missing or empty and 400 "Invalid Token" when verification fails, whatever
the handler is, and the store is unchanged.  A header `Bearer <token>` with a
token free of spaces presents exactly that token. -/
theorem protected_route_gate (lib : Lib) (cfg : Config) (ctx : Ctx)
    (authorization : Option String) (handler : Payload → Store → Response × Store)
    (st : Store) :
    (∀ user, authenticate lib cfg ctx authorization = .next user ↔
        ∃ token, secondPiece authorization = some token ∧ token ≠ ""
          ∧ lib.verify token cfg.JWT_SECRET ctx.now = some user)
    ∧ (∀ user, authenticate lib cfg ctx authorization = .next user →
        guarded lib cfg ctx authorization handler st = handler user st)
    ∧ ((∀ user, authenticate lib cfg ctx authorization ≠ .next user) →
        guarded lib cfg ctx authorization handler st
          = (if secondPiece authorization = none ∨ secondPiece authorization = some ""
              then ⟨401, .message "Access Denied"⟩
              else ⟨400, .message "Invalid Token"⟩, st))
    ∧ (∀ token : String, (∀ c ∈ token.data, c ≠ Char.ofNat 32) →
        secondPiece (some ("Bearer " ++ token)) = some token) := by
  refine ⟨fun user => authenticate_next_iff lib cfg ctx authorization user, ?_, ?_,
    fun token h => secondPiece_bearer token h⟩
  · intro user h
    simp [guarded, h]
  · intro h
    unfold guarded
    unfold authenticate at h ⊢
    cases hs : secondPiece authorization with
    | none => simp
    | some token =>
      by_cases ht : token = ""
      · simp [ht]
      · cases hv : lib.verify token cfg.JWT_SECRET ctx.now with
        | none => simp [ht, hv]
        | some p => simp [hs, ht, hv] at h

/-- Witness for `protected_route_gate`: a valid bearer token reaches the handler. -/
theorem protected_route_gate_witness :
    guarded demoLib demoConfig ⟨0, 7, 0⟩ (some "Bearer tokenA") myQrcodes Store.empty
      = myQrcodes ⟨1, .str "a@example.com", 0, 86400⟩ Store.empty :=
  (protected_route_gate demoLib demoConfig ⟨0, 7, 0⟩ (some "Bearer tokenA") myQrcodes
    Store.empty).2.1 _ (by decide)

/-! ## Listing (C6) -/

theorem sortCreatedAtDesc_perm (l : List QRDoc) : (sortCreatedAtDesc l).Perm l :=
  List.perm_insertionSort newerFirst l

theorem sortCreatedAtDesc_sorted (l : List QRDoc) :
    (sortCreatedAtDesc l).Pairwise (fun a b => b.createdAt ≤ a.createdAt) :=
  List.sorted_insertionSort newerFirst l

theorem mem_listing (userId : Nat) (qrcodes : List QRDoc) (q : QRDoc) :
    q ∈ sortCreatedAtDesc (QRCode.find userId qrcodes) ↔ q ∈ qrcodes ∧ q.userId = userId := by
  rw [(sortCreatedAtDesc_perm _).mem_iff]
  simp [QRCode.find]

/-- C6: an authenticated `GET /my-qrcodes` answers 200 with a list that is a
rearrangement of exactly the stored records owned by the caller (each as often
as stored, none missing, none extra), in descending `createdAt` order; the
list is empty, still with status 200, when the caller owns no record; the
store is unchanged. -/
theorem my_qrcodes_listing (lib : Lib) (cfg : Config) (ctx : Ctx)
    (authorization : Option String) (user : Payload) (st : Store)
    (hauth : authenticate lib cfg ctx authorization = .next user) :
    ∃ listing : List QRDoc,
      guarded lib cfg ctx authorization myQrcodes st = (⟨200, .qrcodes listing⟩, st)
      ∧ listing.Perm (st.qrcodes.filter (fun q => decide (q.userId = user.userId)))
      ∧ (∀ q, q ∈ listing ↔ q ∈ st.qrcodes ∧ q.userId = user.userId)
      ∧ listing.Pairwise (fun a b => b.createdAt ≤ a.createdAt)
      ∧ ((∀ q ∈ st.qrcodes, q.userId ≠ user.userId) → listing = []) := by
  refine ⟨sortCreatedAtDesc (QRCode.find user.userId st.qrcodes), ?_, ?_, ?_, ?_, ?_⟩
  · simp [guarded, hauth, myQrcodes]
  · exact sortCreatedAtDesc_perm _
  · exact mem_listing user.userId st.qrcodes
  · exact sortCreatedAtDesc_sorted _
  · intro h
    apply List.eq_nil_iff_forall_not_mem.2
    intro q hq
    have := (mem_listing user.userId st.qrcodes q).1 hq
    exact h q this.1 this.2

/-- Witness for `my_qrcodes_listing`: two records of user 1 and one of user 2;
user 1 is shown its two records, the newer one first. -/
theorem my_qrcodes_listing_witness :
    ∃ listing : List QRDoc,
      guarded demoLib demoConfig ⟨9, 0, 0⟩ (some "Bearer tokenA") myQrcodes
          ⟨[], [⟨1, 1, "URL", .str "u", 3⟩, ⟨2, 2, "URL", .str "v", 4⟩,
                ⟨3, 1, "TEXT", .str "w", 5⟩]⟩
        = (⟨200, .qrcodes listing⟩,
            ⟨[], [⟨1, 1, "URL", .str "u", 3⟩, ⟨2, 2, "URL", .str "v", 4⟩,
                  ⟨3, 1, "TEXT", .str "w", 5⟩]⟩)
      ∧ listing = [⟨3, 1, "TEXT", .str "w", 5⟩, ⟨1, 1, "URL", .str "u", 3⟩] := by
  obtain ⟨listing, h, -⟩ := my_qrcodes_listing demoLib demoConfig ⟨9, 0, 0⟩
    (some "Bearer tokenA") ⟨1, .str "a@example.com", 0, 86400⟩
    ⟨[], [⟨1, 1, "URL", .str "u", 3⟩, ⟨2, 2, "URL", .str "v", 4⟩,
          ⟨3, 1, "TEXT", .str "w", 5⟩]⟩ (by decide)
  refine ⟨listing, h, ?_⟩
  have h2 : guarded demoLib demoConfig ⟨9, 0, 0⟩ (some "Bearer tokenA") myQrcodes
      ⟨[], [⟨1, 1, "URL", .str "u", 3⟩, ⟨2, 2, "URL", .str "v", 4⟩,
            ⟨3, 1, "TEXT", .str "w", 5⟩]⟩
      = (⟨200, .qrcodes [⟨3, 1, "TEXT", .str "w", 5⟩, ⟨1, 1, "URL", .str "u", 3⟩]⟩,
          ⟨[], [⟨1, 1, "URL", .str "u", 3⟩, ⟨2, 2, "URL", .str "v", 4⟩,
                ⟨3, 1, "TEXT", .str "w", 5⟩]⟩) := by decide
  rw [h2] at h
  injection h with h₁ _
  injection h₁ with _ h₃
  injection h₃ with h₄
  exact h₄.symm

/-! ## Creating a record (C5) -/

theorem qrcode_save_ok (lib : Lib) (_id userId : Nat) (type data : JSVal) (now : Nat)
    (qrcodes : List QRDoc) (ty : String) (hty : requiredString lib "type" type = .ok ty)
    (hdata : data.truthy = true) (hfresh : ∀ q ∈ qrcodes, q._id ≠ _id) :
    QRCode.save lib _id userId type data now qrcodes
      = .ok (⟨_id, userId, ty, storedMixed lib data, now⟩,
          qrcodes ++ [⟨_id, userId, ty, storedMixed lib data, now⟩]) := by
  have hany : (qrcodes.any fun q => decide (q._id = _id)) = false := by
    simpa [List.any_eq_false] using hfresh
  have hmixed : requiredMixed "data" data = .ok data := by
    cases data <;> simp_all [requiredMixed, JSVal.truthy]
  simp [QRCode.save, hty, hmixed, hany]

theorem qrcode_save_shape (lib : Lib) (_id userId : Nat) (type data : JSVal) (now : Nat)
    (qrcodes : List QRDoc) (doc : QRDoc) (qrcodes₂ : List QRDoc)
    (h : QRCode.save lib _id userId type data now qrcodes = .ok (doc, qrcodes₂)) :
    qrcodes₂ = qrcodes ++ [doc] ∧ doc.userId = userId ∧ doc._id = _id
      ∧ doc.createdAt = now ∧ doc.data = storedMixed lib data := by
  unfold QRCode.save at h
  split at h
  · simp at h
  · split at h
    · simp at h
    · rename_i d hd
      have hdd : d = data := by
        cases data <;> simp_all [requiredMixed]
      split at h
      · simp at h
      · simp only [Except.ok.injEq, Prod.mk.injEq] at h
        obtain ⟨h₁, h₂⟩ := h
        subst h₁
        subst h₂
        simp [hdd]

/-- C5, as stated, fails: with `type` and `data` both present in the body and
`data` equal to `0`, the authenticated request is answered 400 "Type and data
are required" and nothing is persisted; and with `data` the empty object the
request is answered 201, but the record persisted and returned has no `data`
property, the schema dropping the empty object. -/
theorem create_qr_rejects_zero_data :
    field [("type", .str "URL"), ("data", .num 0)] "type" ≠ .undefined
    ∧ field [("type", .str "URL"), ("data", .num 0)] "data" ≠ .undefined
    ∧ guarded demoLib demoConfig ⟨0, 7, 0⟩ (some "Bearer tokenA")
        (createQr demoLib ⟨0, 7, 0⟩ [("type", .str "URL"), ("data", .num 0)]) Store.empty
      = (⟨400, .message "Type and data are required"⟩, Store.empty)
    ∧ guarded demoLib demoConfig ⟨0, 7, 0⟩ (some "Bearer tokenA")
        (createQr demoLib ⟨0, 7, 0⟩ [("type", .str "URL"), ("data", .obj .nil)]) Store.empty
      = (⟨201, .messageQr "QR Code saved successfully" ⟨7, 1, "URL", .undefined, 0⟩⟩,
          ⟨[], [⟨7, 1, "URL", .undefined, 0⟩]⟩) := by
  decide

/-- C5 (amended): an authenticated `POST /create-qr` is answered with the
validation failure (400 "Type and data are required", nothing persisted) if and
only if `type` or `data` is falsy, that is absent, null, `false`, `0` or the
empty string.  When both are truthy, `type` passes the schema (it casts to a
non-empty string, as every non-empty string does) and the generated id is
unused, one record with owner = the caller's userId, that type, the data as
the schema serialises it and createdAt = the current time is appended to the
store and returned with status 201; a string, number or boolean is serialised
as given, and the empty object is dropped.  Whenever the status is not 201
the store is unchanged. -/
theorem create_qr_outcome (lib : Lib) (cfg : Config) (ctx : Ctx)
    (authorization : Option String) (user : Payload) (body : Body) (st : Store)
    (hauth : authenticate lib cfg ctx authorization = .next user) :
    (guarded lib cfg ctx authorization (createQr lib ctx body) st
        = (⟨400, .message "Type and data are required"⟩, st)
      ↔ ((field body "type").truthy = false ∨ (field body "data").truthy = false))
    ∧ (∀ ty, (field body "type").truthy = true → (field body "data").truthy = true →
        requiredString lib "type" (field body "type") = .ok ty →
        (∀ q ∈ st.qrcodes, q._id ≠ ctx.objectId) →
        guarded lib cfg ctx authorization (createQr lib ctx body) st
          = (⟨201, .messageQr "QR Code saved successfully"
                ⟨ctx.objectId, user.userId, ty, storedMixed lib (field body "data"), ctx.now⟩⟩,
             { st with qrcodes := st.qrcodes
                ++ [⟨ctx.objectId, user.userId, ty, storedMixed lib (field body "data"),
                      ctx.now⟩] }))
    ∧ ((∀ s, storedMixed lib (.str s) = .str s) ∧ (∀ n, storedMixed lib (.num n) = .num n)
        ∧ (∀ b, storedMixed lib (.bool b) = .bool b)
        ∧ storedMixed lib (.obj .nil) = .undefined)
    ∧ (∀ t, field body "type" = .str t → t ≠ "" →
        (field body "type").truthy = true
          ∧ requiredString lib "type" (field body "type") = .ok t)
    ∧ ((guarded lib cfg ctx authorization (createQr lib ctx body) st).1.status ≠ 201 →
        (guarded lib cfg ctx authorization (createQr lib ctx body) st).2 = st) := by
  have hg : guarded lib cfg ctx authorization (createQr lib ctx body) st
      = createQr lib ctx body user st := by simp [guarded, hauth]
  rw [hg]
  refine ⟨?_, ?_, ⟨fun _ => rfl, fun _ => rfl, fun _ => rfl, rfl⟩, ?_, ?_⟩
  · cases h₁ : (field body "type").truthy <;> cases h₂ : (field body "data").truthy <;>
      simp [createQr, h₁, h₂]
    split <;> simp
  · intro ty h₁ h₂ hty hfresh
    simp [createQr, h₁, h₂, qrcode_save_ok lib _ _ _ _ _ _ ty hty h₂ hfresh]
  · intro t ht hne
    simp [ht, JSVal.truthy, requiredString, hne]
  · simp only [createQr]
    split
    · simp
    · split <;> simp

/-- Witness for `create_qr_outcome`: a URL record is stored for user 1. -/
theorem create_qr_outcome_witness :
    guarded demoLib demoConfig ⟨5, 7, 0⟩ (some "Bearer tokenA")
        (createQr demoLib ⟨5, 7, 0⟩ [("type", .str "URL"), ("data", .str "https://a.example")])
        Store.empty
      = (⟨201, .messageQr "QR Code saved successfully"
            ⟨7, 1, "URL", .str "https://a.example", 5⟩⟩,
         ⟨[], [⟨7, 1, "URL", .str "https://a.example", 5⟩]⟩) :=
  (create_qr_outcome demoLib demoConfig ⟨5, 7, 0⟩ (some "Bearer tokenA")
    ⟨1, .str "a@example.com", 0, 86400⟩
    [("type", .str "URL"), ("data", .str "https://a.example")] Store.empty
    (by decide)).2.1 "URL" (by decide) (by decide) (by decide) (by decide)

/-! ## Signup (C3, C9) -/

theorem findOne_str_eq_none (lib : Lib) (e : String) (users : List UserDoc) :
    User.findOne lib (.str e) users = .ok none ↔ ∀ u ∈ users, u.email ≠ e := by
  simp only [User.findOne, emailQuery, Except.ok.injEq, List.find?_eq_none,
    decide_eq_true_eq]
  constructor
  · intro h u hu heq
    exact h u hu heq.symm
  · intro h u hu heq
    exact h u hu heq.symm

theorem findOne_str_eq_some (lib : Lib) (e : String) (users : List UserDoc) (u : UserDoc)
    (h : User.findOne lib (.str e) users = .ok (some u)) : u ∈ users ∧ u.email = e := by
  simp only [User.findOne, emailQuery, Except.ok.injEq] at h
  refine ⟨List.mem_of_find?_eq_some h, ?_⟩
  have := List.find?_some h
  simp only [decide_eq_true_eq] at this
  exact this.symm

theorem findOne_str_ok (lib : Lib) (e : String) (users : List UserDoc) :
    ∃ found, User.findOne lib (.str e) users = .ok found :=
  ⟨_, rfl⟩

theorem requiredString_str (lib : Lib) (path s t : String)
    (h : requiredString lib path (.str s) = .ok t) : t = s ∧ s ≠ "" := by
  unfold requiredString at h
  by_cases hs : s = ""
  · simp [hs] at h
  · simp [hs] at h
    exact ⟨h.symm, hs⟩

theorem user_save_shape (lib : Lib) (_id : Nat) (firstName lastName email : JSVal)
    (password : String) (users : List UserDoc) (doc : UserDoc) (users₂ : List UserDoc)
    (h : User.save lib _id firstName lastName email password users = .ok (doc, users₂)) :
    users₂ = users ++ [doc] ∧ doc._id = _id
      ∧ requiredString lib "firstName" firstName = .ok doc.firstName
      ∧ requiredString lib "lastName" lastName = .ok doc.lastName
      ∧ requiredString lib "email" email = .ok doc.email
      ∧ doc.password = password
      ∧ (∀ u ∈ users, u._id ≠ _id ∧ u.email ≠ doc.email) := by
  unfold User.save at h
  split at h
  · simp at h
  · rename_i fn hfn
    split at h
    · simp at h
    · rename_i ln hln
      split at h
      · simp at h
      · rename_i em hem
        split at h
        · simp at h
        · rename_i pw hpw
          have hp := (requiredString_str lib _ _ _ hpw).1
          split at h
          · simp at h
          · rename_i hid
            split at h
            · simp at h
            · rename_i hmail
              simp only [Except.ok.injEq, Prod.mk.injEq] at h
              obtain ⟨h₁, h₂⟩ := h
              subst h₁
              subst h₂
              simp only [Bool.not_eq_true, List.any_eq_false, decide_eq_true_eq] at hid hmail
              exact ⟨rfl, rfl, hfn, hln, hem, hp, fun u hu => ⟨hid u hu, hmail u hu⟩⟩

theorem user_save_of_strings (lib : Lib) (_id : Nat) (f l e pw : String)
    (users : List UserDoc) (hf : f ≠ "") (hl : l ≠ "") (he : e ≠ "") (hpw : pw ≠ "")
    (hid : ∀ u ∈ users, u._id ≠ _id) (hmail : ∀ u ∈ users, u.email ≠ e) :
    User.save lib _id (.str f) (.str l) (.str e) pw users
      = .ok (⟨_id, f, l, e, pw⟩, users ++ [⟨_id, f, l, e, pw⟩]) := by
  have h₁ : (users.any fun u => decide (u._id = _id)) = false := by
    simpa [List.any_eq_false] using hid
  have h₂ : (users.any fun u => decide (u.email = e)) = false := by
    simpa [List.any_eq_false] using hmail
  simp [User.save, requiredString, hf, hl, he, hpw, h₁, h₂]

theorem signup_of_existing (lib : Lib) (cfg : Config) (ctx : Ctx) (body : Body) (st : Store)
    (e : String) (hemail : field body "email" = .str e) (hex : ∃ u ∈ st.users, u.email = e) :
    signup lib cfg ctx body st = (⟨400, .message "User already exists"⟩, st) := by
  obtain ⟨found, hf⟩ := findOne_str_ok lib e st.users
  cases found with
  | none =>
    obtain ⟨u, hu, hue⟩ := hex
    exact absurd hue ((findOne_str_eq_none lib e st.users).1 hf u hu)
  | some u => simp [signup, hemail, hf]

theorem signup_created (lib : Lib) (cfg : Config) (ctx : Ctx) (body : Body) (st : Store)
    (h : (signup lib cfg ctx body st).1.status = 201) :
    User.findOne lib (field body "email") st.users = .ok none
    ∧ ∃ hashed newUser users,
        bcryptHash lib (field body "password") 10 ctx.salt = .ok hashed
        ∧ User.save lib ctx.objectId (field body "firstName") (field body "lastName")
            (field body "email") hashed st.users = .ok (newUser, users)
        ∧ (signup lib cfg ctx body st).2 = { st with users := users } := by
  cases hf : User.findOne lib (field body "email") st.users with
  | error e => simp [signup, hf] at h
  | ok found =>
    cases found with
    | some u => simp [signup, hf] at h
    | none =>
      refine ⟨rfl, ?_⟩
      cases hh : bcryptHash lib (field body "password") 10 ctx.salt with
      | error e => simp [signup, hf, hh] at h
      | ok hashed =>
        cases hs : User.save lib ctx.objectId (field body "firstName")
            (field body "lastName") (field body "email") hashed st.users with
        | error e => simp [signup, hf, hh, hs] at h
        | ok r =>
          obtain ⟨newUser, users⟩ := r
          exact ⟨hashed, newUser, users, by first | rfl | assumption, by first | rfl | assumption,
            by simp [signup, hf, hh, hs]⟩

/-- C3: a `POST /signup` whose email equals the email of a stored user is
answered 400 "User already exists" (a body without token) and leaves the store
exactly as it was; and after a successful registration of an email, a second
signup with the same email is refused in that way, so that exactly one User
record with that email exists afterwards. -/
theorem signup_duplicate_email (lib : Lib) (cfg : Config) :
    (∀ (ctx : Ctx) (body : Body) (st : Store) (e : String),
      field body "email" = .str e → (∃ u ∈ st.users, u.email = e) →
      signup lib cfg ctx body st = (⟨400, .message "User already exists"⟩, st))
    ∧ (∀ (ctx₁ ctx₂ : Ctx) (body₁ body₂ : Body) (st : Store) (e : String),
      field body₁ "email" = .str e → field body₂ "email" = .str e →
      (signup lib cfg ctx₁ body₁ st).1.status = 201 →
      signup lib cfg ctx₂ body₂ (signup lib cfg ctx₁ body₁ st).2
          = (⟨400, .message "User already exists"⟩, (signup lib cfg ctx₁ body₁ st).2)
        ∧ (((signup lib cfg ctx₂ body₂ (signup lib cfg ctx₁ body₁ st).2).2.users.filter
              (fun u => decide (u.email = e))).length = 1)) := by
  refine ⟨fun ctx body st e he hex => signup_of_existing lib cfg ctx body st e he hex, ?_⟩
  intro ctx₁ ctx₂ body₁ body₂ st e h₁ h₂ h201
  obtain ⟨hnone, hashed, newUser, users, -, hsave, hst⟩ := signup_created lib cfg ctx₁ body₁ st h201
  obtain ⟨husers, -, -, -, hmail, -, -⟩ := user_save_shape lib _ _ _ _ _ _ _ _ hsave
  rw [h₁] at hnone hmail
  have hne := (findOne_str_eq_none lib e st.users).1 hnone
  have hnew : newUser.email = e := (requiredString_str lib _ _ _ hmail).1
  have hsecond : signup lib cfg ctx₂ body₂ (signup lib cfg ctx₁ body₁ st).2
      = (⟨400, .message "User already exists"⟩, (signup lib cfg ctx₁ body₁ st).2) := by
    apply signup_of_existing lib cfg ctx₂ body₂ _ e h₂
    refine ⟨newUser, ?_, hnew⟩
    rw [hst, husers]
    simp
  refine ⟨hsecond, ?_⟩
  rw [hsecond, hst, husers]
  have hzero : st.users.filter (fun u => decide (u.email = e)) = [] := by
    simpa [List.filter_eq_nil_iff] using hne
  simp [List.filter_append, hzero, hnew]

/-- Witness for `signup_duplicate_email`: the same email registered twice on
the empty store. -/
theorem signup_duplicate_email_witness :
    signup demoLib demoConfig ⟨1, 2, 0⟩
        [("firstName", .str "C"), ("lastName", .str "D"), ("email", .str "a@example.com"),
          ("password", .str "other")]
        (signup demoLib demoConfig ⟨0, 1, 0⟩
          [("firstName", .str "A"), ("lastName", .str "B"), ("email", .str "a@example.com"),
            ("password", .str "pw")] Store.empty).2
      = (⟨400, .message "User already exists"⟩,
          ⟨[⟨1, "A", "B", "a@example.com", "$2a$10$pw"⟩], []⟩) := by
  have h := ((signup_duplicate_email demoLib demoConfig).2 ⟨0, 1, 0⟩ ⟨1, 2, 0⟩
    [("firstName", .str "A"), ("lastName", .str "B"), ("email", .str "a@example.com"),
      ("password", .str "pw")]
    [("firstName", .str "C"), ("lastName", .str "D"), ("email", .str "a@example.com"),
      ("password", .str "other")]
    Store.empty "a@example.com" (by decide) (by decide) (by decide)).1
  rw [h]
  decide

theorem demoLib_signVerify :
    demoLib.SignVerify ⟨1, .str "a@example.com"⟩ "secret" 0 := by
  intro t _
  by_cases h : t < 86400
  · simp [demoLib, expiresIn, h]
  · simp [demoLib, expiresIn, h]

/-- C9: when the email of a `POST /signup` matches no stored user and the hash
and the save succeed, the store gains exactly one User record, appended after
the unchanged existing ones; it carries the submitted firstName, lastName and
email and, as password, the bcrypt hash of the submitted password at cost 10
with the drawn salt (so it differs from the plaintext whenever the hash
does); the response is 201 with the token signed over the claims
(userId: the new id, email: the submitted email) with a lifetime of 24 hours:
under the jsonwebtoken contract it verifies to those claims until 24 hours
after issuance and is rejected from then on. -/
theorem signup_registers_user (lib : Lib) (cfg : Config) (ctx : Ctx) (body : Body)
    (st : Store) (hashed : String) (newUser : UserDoc) (users : List UserDoc)
    (hnone : User.findOne lib (field body "email") st.users = .ok none)
    (hhash : bcryptHash lib (field body "password") 10 ctx.salt = .ok hashed)
    (hsave : User.save lib ctx.objectId (field body "firstName") (field body "lastName")
      (field body "email") hashed st.users = .ok (newUser, users)) :
    signup lib cfg ctx body st
        = (⟨201, .messageToken "User registered successfully"
              (lib.sign ⟨newUser._id, field body "email"⟩ cfg.JWT_SECRET expiresIn ctx.now)⟩,
            ⟨st.users ++ [newUser], st.qrcodes⟩)
    ∧ newUser._id = ctx.objectId
    ∧ (∀ s, field body "firstName" = .str s → newUser.firstName = s)
    ∧ (∀ s, field body "lastName" = .str s → newUser.lastName = s)
    ∧ (∀ s, field body "email" = .str s → newUser.email = s)
    ∧ (∃ p, field body "password" = .str p ∧ newUser.password = lib.hash p 10 ctx.salt
        ∧ (lib.hash p 10 ctx.salt ≠ p → newUser.password ≠ p))
    ∧ expiresIn = 24 * 60 * 60
    ∧ (lib.SignVerify ⟨newUser._id, field body "email"⟩ cfg.JWT_SECRET ctx.now →
        ∀ t, ctx.now ≤ t →
          lib.verify
              (lib.sign ⟨newUser._id, field body "email"⟩ cfg.JWT_SECRET expiresIn ctx.now)
              cfg.JWT_SECRET t
            = if t < ctx.now + 24 * 60 * 60
                then some ⟨newUser._id, field body "email", ctx.now, ctx.now + 24 * 60 * 60⟩
                else none) := by
  obtain ⟨husers, hid, hfn, hln, hem, hpw, -⟩ := user_save_shape lib _ _ _ _ _ _ _ _ hsave
  refine ⟨?_, hid, ?_, ?_, ?_, ?_, rfl, ?_⟩
  · simp [signup, hnone, hhash, hsave, husers]
  · intro s hs
    rw [hs] at hfn
    exact (requiredString_str lib _ _ _ hfn).1
  · intro s hs
    rw [hs] at hln
    exact (requiredString_str lib _ _ _ hln).1
  · intro s hs
    rw [hs] at hem
    exact (requiredString_str lib _ _ _ hem).1
  · unfold bcryptHash at hhash
    split at hhash
    · rename_i p hp
      simp only [Except.ok.injEq] at hhash
      refine ⟨p, hp, ?_, ?_⟩
      · rw [hpw, hhash]
      · intro hne
        rw [hpw, ← hhash]
        exact hne
    · simp at hhash
  · intro hlaw t ht
    exact hlaw t ht

/-- Witness for `signup_registers_user`: a first registration on the empty store. -/
theorem signup_registers_user_witness :
    signup demoLib demoConfig ⟨0, 1, 0⟩
        [("firstName", .str "A"), ("lastName", .str "B"), ("email", .str "a@example.com"),
          ("password", .str "pw")] Store.empty
      = (⟨201, .messageToken "User registered successfully" "tokenA"⟩,
          ⟨[⟨1, "A", "B", "a@example.com", "$2a$10$pw"⟩], []⟩)
    ∧ demoLib.verify "tokenA" "secret" 100 = some ⟨1, .str "a@example.com", 0, 86400⟩ := by
  have h := signup_registers_user demoLib demoConfig ⟨0, 1, 0⟩
    [("firstName", .str "A"), ("lastName", .str "B"), ("email", .str "a@example.com"),
      ("password", .str "pw")] Store.empty "$2a$10$pw"
    ⟨1, "A", "B", "a@example.com", "$2a$10$pw"⟩ [⟨1, "A", "B", "a@example.com", "$2a$10$pw"⟩]
    (by decide) (by decide) (by decide)
  refine ⟨h.1, ?_⟩
  have h2 := h.2.2.2.2.2.2.2 demoLib_signVerify 100 (by decide)
  exact h2

/-! ## Login (C4) -/

theorem login_store (lib : Lib) (cfg : Config) (ctx : Ctx) (body : Body) (st : Store) :
    (login lib cfg ctx body st).2 = st := by
  simp only [login]
  split
  · rfl
  · rfl
  · split <;> rfl

/-- C4, as stated, fails twice.  A stored user has the given email and the
submitted password, the number 12345, does not match the stored hash, yet the
response is 500 "Error during login." and not 401.  And for the email `{}`,
which no stored user has, with a string password, the query rejects and the
response is again 500 and not 404. -/
theorem login_non_string_password :
    login demoLib demoConfig ⟨0, 0, 0⟩
        [("email", .str "a@example.com"), ("password", .num 12345)]
        ⟨[⟨1, "A", "B", "a@example.com", "$2a$10$pw"⟩], []⟩
      = (⟨500, .message "Error during login."⟩,
          ⟨[⟨1, "A", "B", "a@example.com", "$2a$10$pw"⟩], []⟩)
    ∧ login demoLib demoConfig ⟨0, 0, 0⟩
        [("email", .obj .nil), ("password", .str "pw")] Store.empty
      = (⟨500, .message "Error during login."⟩, Store.empty) := by
  decide

/-- C4 (amended): for every `POST /login` whose email the store accepts as a
filter (every string is accepted and selects the users with exactly that
email): if no stored user is selected the response is 404 without token,
whatever the password; if one is selected (the first such user) and the
submitted password is a string that does not match its stored hash, the
response is 401 "Invalid credentials." without token; if it is a string that
matches, the response is 200 with the token signed over (userId: that user's
id, email: that user's email), which under the jsonwebtoken contract verifies
to exactly those claims.  Login never modifies the store, whatever the body. -/
theorem login_outcome (lib : Lib) (cfg : Config) (ctx : Ctx) (body : Body) (st : Store) :
    (login lib cfg ctx body st).2 = st
    ∧ (User.findOne lib (field body "email") st.users = .ok none →
        login lib cfg ctx body st = (⟨404, .message "User not found."⟩, st))
    ∧ (∀ user pw, User.findOne lib (field body "email") st.users = .ok (some user) →
        field body "password" = .str pw → lib.compare pw user.password = false →
        login lib cfg ctx body st = (⟨401, .message "Invalid credentials."⟩, st))
    ∧ (∀ user pw, User.findOne lib (field body "email") st.users = .ok (some user) →
        field body "password" = .str pw → lib.compare pw user.password = true →
        login lib cfg ctx body st
            = (⟨200, .messageToken "Login successful!"
                  (lib.sign ⟨user._id, .str user.email⟩ cfg.JWT_SECRET expiresIn ctx.now)⟩, st)
          ∧ (lib.SignVerify ⟨user._id, .str user.email⟩ cfg.JWT_SECRET ctx.now →
              lib.verify
                  (lib.sign ⟨user._id, .str user.email⟩ cfg.JWT_SECRET expiresIn ctx.now)
                  cfg.JWT_SECRET ctx.now
                = some ⟨user._id, .str user.email, ctx.now, ctx.now + expiresIn⟩))
    ∧ (∀ e, field body "email" = .str e →
        (User.findOne lib (field body "email") st.users = .ok none
          ↔ ∀ u ∈ st.users, u.email ≠ e)
        ∧ ((∃ u ∈ st.users, u.email = e) →
            ∃ user, User.findOne lib (field body "email") st.users = .ok (some user)
              ∧ user ∈ st.users ∧ user.email = e)) := by
  refine ⟨login_store lib cfg ctx body st, ?_, ?_, ?_, ?_⟩
  · intro hf
    simp [login, hf]
  · intro user pw hf hpw hc
    simp [login, hf, hpw, bcryptCompare, hc]
  · intro user pw hf hpw hc
    refine ⟨by simp [login, hf, hpw, bcryptCompare, hc], ?_⟩
    intro hlaw
    have := hlaw ctx.now (Nat.le_refl _)
    simpa [expiresIn] using this
  · intro e he
    rw [he]
    refine ⟨findOne_str_eq_none lib e st.users, ?_⟩
    intro hex
    obtain ⟨found, hf⟩ := findOne_str_ok lib e st.users
    cases found with
    | none =>
      obtain ⟨u, hu, hue⟩ := hex
      exact absurd hue ((findOne_str_eq_none lib e st.users).1 hf u hu)
    | some user =>
      obtain ⟨hmem, hue⟩ := findOne_str_eq_some lib e st.users user hf
      exact ⟨user, hf, hmem, hue⟩

/-- Witness for `login_outcome`: correct credentials yield the token of user 1. -/
theorem login_outcome_witness :
    login demoLib demoConfig ⟨0, 0, 0⟩
        [("email", .str "a@example.com"), ("password", .str "pw")]
        ⟨[⟨1, "A", "B", "a@example.com", "$2a$10$pw"⟩], []⟩
      = (⟨200, .messageToken "Login successful!" "tokenA"⟩,
          ⟨[⟨1, "A", "B", "a@example.com", "$2a$10$pw"⟩], []⟩)
    ∧ demoLib.verify "tokenA" "secret" 0 = some ⟨1, .str "a@example.com", 0, 86400⟩ := by
  have h := (login_outcome demoLib demoConfig ⟨0, 0, 0⟩
    [("email", .str "a@example.com"), ("password", .str "pw")]
    ⟨[⟨1, "A", "B", "a@example.com", "$2a$10$pw"⟩], []⟩).2.2.2.1
    ⟨1, "A", "B", "a@example.com", "$2a$10$pw"⟩ "pw" (by decide) (by decide) (by decide)
  exact ⟨h.1, h.2 demoLib_signVerify⟩

/-! ## Missing fields (C10) -/

theorem signup_store_of_not_created (lib : Lib) (cfg : Config) (ctx : Ctx) (body : Body)
    (st : Store) (h : (signup lib cfg ctx body st).1.status ≠ 201) :
    (signup lib cfg ctx body st).2 = st
      ∧ ∀ m token, (signup lib cfg ctx body st).1.body ≠ .messageToken m token := by
  cases hf : User.findOne lib (field body "email") st.users with
  | error e => simp [signup, hf]
  | ok found =>
    cases found with
    | some u => simp [signup, hf]
    | none =>
      cases hh : bcryptHash lib (field body "password") 10 ctx.salt with
      | error e => simp [signup, hf, hh]
      | ok hashed =>
        cases hs : User.save lib ctx.objectId (field body "firstName")
            (field body "lastName") (field body "email") hashed st.users with
        | error e => simp [signup, hf, hh, hs]
        | ok r =>
          obtain ⟨newUser, users⟩ := r
          simp [signup, hf, hh, hs] at h

theorem signup_missing_field_no_write (lib : Lib) (cfg : Config) (ctx : Ctx) (body : Body)
    (st : Store)
    (h : field body "firstName" = .undefined ∨ field body "lastName" = .undefined
      ∨ field body "email" = .undefined ∨ field body "password" = .undefined) :
    (signup lib cfg ctx body st).2 = st
      ∧ ∀ m token, (signup lib cfg ctx body st).1.body ≠ .messageToken m token := by
  apply signup_store_of_not_created
  intro h201
  obtain ⟨-, hashed, newUser, users, hh, hs, -⟩ := signup_created lib cfg ctx body st h201
  obtain ⟨-, -, hfn, hln, hem, -, -⟩ := user_save_shape lib _ _ _ _ _ _ _ _ hs
  rcases h with h | h | h | h
  · rw [h] at hfn; simp [requiredString] at hfn
  · rw [h] at hln; simp [requiredString] at hln
  · rw [h] at hem; simp [requiredString] at hem
  · rw [h] at hh; simp [bcryptHash] at hh

/-- C10, evaluated on the code: with any library, a signup without password
and a signup without firstName on the empty store are answered 500 "Error
registering user", a login without password for a stored email is answered
500 "Error during login.", and a login without email on the empty store is
answered 404; none of them is the 400 validation failure.  In each case the
store is unchanged and no token is sent. -/
theorem missing_field_responses (lib : Lib) (cfg : Config) (ctx : Ctx) :
    signup lib cfg ctx
        [("firstName", .str "A"), ("lastName", .str "B"), ("email", .str "a@example.com")]
        Store.empty
      = (⟨500, .messageError "Error registering user" .illegalArguments⟩, Store.empty)
    ∧ signup lib cfg ctx
        [("lastName", .str "B"), ("email", .str "a@example.com"), ("password", .str "pw")]
        Store.empty
      = (⟨500, .messageError "Error registering user" (.validation "firstName")⟩, Store.empty)
    ∧ login lib cfg ctx [("email", .str "a@example.com")]
        ⟨[⟨1, "A", "B", "a@example.com", "$2a$10$pw"⟩], []⟩
      = (⟨500, .message "Error during login."⟩,
          ⟨[⟨1, "A", "B", "a@example.com", "$2a$10$pw"⟩], []⟩)
    ∧ login lib cfg ctx [("password", .str "pw")] Store.empty
      = (⟨404, .message "User not found."⟩, Store.empty) := by
  refine ⟨?_, ?_, ?_, ?_⟩
  · simp [signup, field, List.lookup, User.findOne, emailQuery, Store.empty, bcryptHash]
  · simp [signup, field, List.lookup, User.findOne, emailQuery, Store.empty, bcryptHash,
      User.save, requiredString]
  · simp [login, field, List.lookup, User.findOne, emailQuery, bcryptCompare]
  · simp [login, field, List.lookup, User.findOne, emailQuery, Store.empty]

/-! ## Donation checkout (C7) -/

/-- C7, evaluated on the code: `COMMON_VARIABLES` is declared nowhere in
`server.js`, so unless the global object happens to carry a property of that
name, evaluating the request argument throws inside the `try`; the provider
is not called and every `POST /create-checkout-session` is answered 500 with
the body (error: "Internal server error"), whatever the provider would do. -/
theorem checkout_always_fails (lib : Lib) (cfg : Config)
    (h : cfg.globals.lookup "COMMON_VARIABLES" = none) :
    createCheckoutSession lib cfg = ⟨500, .error "Internal server error"⟩ := by
  simp [createCheckoutSession, frontEndUrl, evalGlobal, h]

/-- Witness for `checkout_always_fails`: the provider of `demoLib` would
succeed, the response is 500 all the same. -/
theorem checkout_always_fails_witness :
    (∀ params, demoLib.createSession params = some ⟨"https://checkout.example/session"⟩)
    ∧ createCheckoutSession demoLib demoConfig = ⟨500, .error "Internal server error"⟩ :=
  ⟨fun _ => rfl, checkout_always_fails demoLib demoConfig (by decide)⟩

/-- What the handler would do if a global `COMMON_VARIABLES` with a string
`FRONT_END` existed: one fixed line item and the provider URL in the answer. -/
theorem checkout_with_front_end (lib : Lib) (cfg : Config) (fields : JSFields)
    (base : String) (session : Session)
    (hcv : cfg.globals.lookup "COMMON_VARIABLES" = some (.obj fields))
    (hfe : fields.get "FRONT_END" = .str base)
    (hok : lib.createSession
      (sessionParams (base ++ "/payment-success") (base ++ "/payment-cancel")) = some session) :
    createCheckoutSession lib cfg = ⟨200, .url session.url⟩
      ∧ (sessionParams (base ++ "/payment-success") (base ++ "/payment-cancel")).line_items
          = [⟨⟨"usd", ⟨"Support Our Project", "Donate and support our work!"⟩, 500⟩, 1⟩] := by
  refine ⟨?_, rfl⟩
  simp [createCheckoutSession, frontEndUrl, evalGlobal, hcv, member, hfe, JSVal.toStr, hok]

/-! ## Isolation between users (C2) -/

theorem run_append (lib : Lib) (cfg : Config) (st : Store) (l₁ l₂ : List Request) :
    run lib cfg st (l₁ ++ l₂) = run lib cfg (run lib cfg st l₁) l₂ := by
  induction l₁ generalizing st with
  | nil => rfl
  | cons r rs ih => simp [run, ih]

theorem createQr_qrcodes (lib : Lib) (ctx : Ctx) (body : Body) (user : Payload) (st : Store) :
    (createQr lib ctx body user st).2.qrcodes = st.qrcodes
    ∨ ∃ doc, createQr lib ctx body user st
          = (⟨201, .messageQr "QR Code saved successfully" doc⟩,
              { st with qrcodes := st.qrcodes ++ [doc] })
        ∧ doc.userId = user.userId := by
  simp only [createQr]
  split
  · exact Or.inl rfl
  · cases hs : QRCode.save lib ctx.objectId user.userId (field body "type")
        (field body "data") ctx.now st.qrcodes with
    | error e => exact Or.inl rfl
    | ok r =>
      obtain ⟨doc, qrcodes⟩ := r
      obtain ⟨h₁, h₂, -⟩ := qrcode_save_shape lib _ _ _ _ _ _ _ _ hs
      exact Or.inr ⟨doc, by simp [h₁], h₂⟩

/-- One request either leaves the `qrcodes` collection as it is, or it is an
accepted `POST /create-qr` that appends one record owned by the token's user. -/
theorem handle_qrcodes (lib : Lib) (cfg : Config) (st : Store) (req : Request) :
    (handle lib cfg st req).2.qrcodes = st.qrcodes
    ∨ ∃ authorization body user doc,
        req.route = .createQr authorization body
        ∧ authenticate lib cfg req.ctx authorization = .next user
        ∧ doc.userId = user.userId
        ∧ (handle lib cfg st req).1 = ⟨201, .messageQr "QR Code saved successfully" doc⟩
        ∧ (handle lib cfg st req).2.qrcodes = st.qrcodes ++ [doc] := by
  unfold handle
  cases hc : corsOrigin req.origin with
  | error e => exact Or.inl rfl
  | ok b =>
    cases hr : req.route with
    | root => exact Or.inl rfl
    | signup body =>
      left
      by_cases h : (signup lib cfg req.ctx body st).1.status = 201
      · obtain ⟨-, _, _, _, -, -, hst⟩ := signup_created lib cfg req.ctx body st h
        simp [hst]
      · simp [(signup_store_of_not_created lib cfg req.ctx body st h).1]
    | login body => left; simp [login_store]
    | createQr authorization body =>
      simp only [guarded]
      cases ha : authenticate lib cfg req.ctx authorization with
      | respond res => exact Or.inl rfl
      | next user =>
        rcases createQr_qrcodes lib req.ctx body user st with h | ⟨doc, h, hd⟩
        · exact Or.inl h
        · exact Or.inr ⟨authorization, body, user, doc, rfl, ha, hd, by simp [h], by simp [h]⟩
    | myQrcodes authorization =>
      left
      simp only [guarded]
      cases authenticate lib cfg req.ctx authorization <;> rfl
    | createCheckoutSession => exact Or.inl rfl

theorem CreatedUnder.userId_eq (lib : Lib) (cfg : Config) (reqs : List Request)
    (userId : Nat) (r : QRDoc) (h : CreatedUnder lib cfg reqs userId r) :
    r.userId = userId := by
  obtain ⟨before, after, req, authorization, body, user, -, hroute, hauth, hid, hres⟩ := h
  revert hres
  simp only [handle]
  cases corsOrigin req.origin with
  | error e => simp
  | ok _ =>
    simp only [hroute, guarded, hauth, createQr]
    split
    · simp
    · cases hs : QRCode.save lib req.ctx.objectId user.userId (field body "type")
          (field body "data") req.ctx.now (run lib cfg Store.empty before).qrcodes with
      | error e => simp
      | ok p =>
        obtain ⟨doc, qrcodes⟩ := p
        obtain ⟨-, h₂, -⟩ := qrcode_save_shape lib _ _ _ _ _ _ _ _ hs
        simp only [Response.mk.injEq, ResBody.messageQr.injEq, true_and]
        intro h
        rw [← h, h₂, hid]

theorem CreatedUnder.snoc (lib : Lib) (cfg : Config) (reqs : List Request) (req : Request)
    (userId : Nat) (r : QRDoc) (h : CreatedUnder lib cfg reqs userId r) :
    CreatedUnder lib cfg (reqs ++ [req]) userId r := by
  obtain ⟨before, after, q, authorization, body, user, hsplit, rest⟩ := h
  exact ⟨before, after ++ [req], q, authorization, body, user, by simp [hsplit], rest⟩

/-- Every record in the store after a run from the empty store was created by
a `POST /create-qr` of that run made under a token carrying its owner. -/
theorem run_qrcodes_created (lib : Lib) (cfg : Config) (reqs : List Request) :
    ∀ r ∈ (run lib cfg Store.empty reqs).qrcodes, CreatedUnder lib cfg reqs r.userId r := by
  induction reqs using List.reverseRecOn with
  | nil => intro r hr; simp [run, Store.empty] at hr
  | append_singleton reqs req ih =>
    intro r hr
    have hrun : run lib cfg Store.empty (reqs ++ [req])
        = (handle lib cfg (run lib cfg Store.empty reqs) req).2 := by
      rw [run_append]; rfl
    rw [hrun] at hr
    rcases handle_qrcodes lib cfg (run lib cfg Store.empty reqs) req with
      hsame | ⟨authorization, body, user, doc, hroute, hauth, hd, hres, happ⟩
    · rw [hsame] at hr
      exact (ih r hr).snoc lib cfg reqs req r.userId r
    · rw [happ, List.mem_append, List.mem_singleton] at hr
      rcases hr with hr | hr
      · exact (ih r hr).snoc lib cfg reqs req r.userId r
      · subst hr
        exact ⟨reqs, [], req, authorization, body, user, rfl, hroute, hauth, hd.symm, hres⟩

theorem find_createQr_other (lib : Lib) (ctx : Ctx) (body : Body) (user : Payload)
    (st : Store) (userId : Nat) (h : user.userId ≠ userId) :
    QRCode.find userId (createQr lib ctx body user st).2.qrcodes
      = QRCode.find userId st.qrcodes := by
  rcases createQr_qrcodes lib ctx body user st with hsame | ⟨doc, hdoc, hd⟩
  · rw [hsame]
  · rw [hdoc]
    have : ¬ doc.userId = userId := by rw [hd]; exact h
    simp [QRCode.find, List.filter_append, this]

/-- C2: after any sequence of requests served from the empty store, the list
answered to `GET /my-qrcodes` under a token carrying userId A contains only
records created by a `POST /create-qr` of that sequence made under a token
carrying A; a record created under a token carrying another userId B is never
in it; and a further `POST /create-qr` under a token carrying B does not
change the answer given to A. -/
theorem listing_isolation (lib : Lib) (cfg : Config) (reqs : List Request) (ctx : Ctx)
    (authorization : Option String) (userA : Payload)
    (hauth : authenticate lib cfg ctx authorization = .next userA) :
    (∃ listing : List QRDoc,
      guarded lib cfg ctx authorization myQrcodes (run lib cfg Store.empty reqs)
          = (⟨200, .qrcodes listing⟩, run lib cfg Store.empty reqs)
      ∧ (∀ r ∈ listing, CreatedUnder lib cfg reqs userA.userId r)
      ∧ (∀ userB r, userB ≠ userA.userId → CreatedUnder lib cfg reqs userB r →
          r ∉ listing))
    ∧ (∀ (ctxB : Ctx) (authorizationB : Option String) (bodyB : Body) (userB : Payload),
        authenticate lib cfg ctxB authorizationB = .next userB →
        userB.userId ≠ userA.userId →
        (guarded lib cfg ctx authorization myQrcodes
            (guarded lib cfg ctxB authorizationB (createQr lib ctxB bodyB)
              (run lib cfg Store.empty reqs)).2).1
          = (guarded lib cfg ctx authorization myQrcodes (run lib cfg Store.empty reqs)).1) := by
  constructor
  · refine ⟨sortCreatedAtDesc (QRCode.find userA.userId (run lib cfg Store.empty reqs).qrcodes),
      by simp [guarded, hauth, myQrcodes], ?_, ?_⟩
    · intro r hr
      obtain ⟨hmem, hid⟩ := (mem_listing _ _ r).1 hr
      have := run_qrcodes_created lib cfg reqs r hmem
      rwa [hid] at this
    · intro userB r hne hcreated hr
      obtain ⟨-, hid⟩ := (mem_listing _ _ r).1 hr
      have := hcreated.userId_eq
      exact hne (this.symm.trans hid)
  · intro ctxB authorizationB bodyB userB hB hne
    simp only [guarded, hauth, hB, myQrcodes]
    rw [find_createQr_other lib ctxB bodyB userB _ userA.userId hne]

/-- Witness for `listing_isolation`: user 1 signs up and stores a record, then
a record is stored under the token of user 2; the listing of user 1 holds
what was created under its own token only. -/
theorem listing_isolation_witness :
    ∃ listing : List QRDoc,
      guarded demoLib demoConfig ⟨3, 0, 0⟩ (some "Bearer tokenA") myQrcodes
          (run demoLib demoConfig Store.empty
            [⟨none, .signup [("firstName", .str "A"), ("lastName", .str "B"),
                ("email", .str "a@example.com"), ("password", .str "pw")], ⟨0, 1, 0⟩⟩,
             ⟨none, .createQr (some "Bearer tokenA")
                [("type", .str "URL"), ("data", .str "https://a.example")], ⟨1, 10, 0⟩⟩,
             ⟨none, .createQr (some "Bearer tokenB")
                [("type", .str "TEXT"), ("data", .str "hello")], ⟨2, 11, 0⟩⟩])
        = (⟨200, .qrcodes listing⟩,
            ⟨[⟨1, "A", "B", "a@example.com", "$2a$10$pw"⟩],
             [⟨10, 1, "URL", .str "https://a.example", 1⟩, ⟨11, 2, "TEXT", .str "hello", 2⟩]⟩)
      ∧ ∀ r ∈ listing, r.userId = 1 := by
  obtain ⟨listing, h, hcreated, -⟩ := (listing_isolation demoLib demoConfig
    [⟨none, .signup [("firstName", .str "A"), ("lastName", .str "B"),
        ("email", .str "a@example.com"), ("password", .str "pw")], ⟨0, 1, 0⟩⟩,
     ⟨none, .createQr (some "Bearer tokenA")
        [("type", .str "URL"), ("data", .str "https://a.example")], ⟨1, 10, 0⟩⟩,
     ⟨none, .createQr (some "Bearer tokenB")
        [("type", .str "TEXT"), ("data", .str "hello")], ⟨2, 11, 0⟩⟩]
    ⟨3, 0, 0⟩ (some "Bearer tokenA") ⟨1, .str "a@example.com", 0, 86400⟩ (by decide)).1
  have hrun : run demoLib demoConfig Store.empty
      [⟨none, .signup [("firstName", .str "A"), ("lastName", .str "B"),
          ("email", .str "a@example.com"), ("password", .str "pw")], ⟨0, 1, 0⟩⟩,
       ⟨none, .createQr (some "Bearer tokenA")
          [("type", .str "URL"), ("data", .str "https://a.example")], ⟨1, 10, 0⟩⟩,
       ⟨none, .createQr (some "Bearer tokenB")
          [("type", .str "TEXT"), ("data", .str "hello")], ⟨2, 11, 0⟩⟩]
      = ⟨[⟨1, "A", "B", "a@example.com", "$2a$10$pw"⟩],
         [⟨10, 1, "URL", .str "https://a.example", 1⟩, ⟨11, 2, "TEXT", .str "hello", 2⟩]⟩ := by
    decide
  refine ⟨listing, ?_, fun r hr => (hcreated r hr).userId_eq⟩
  rw [h, hrun]

end QrBackend
